import Mathlib

/-!
Shallow embedding of the core of `slite_api.py`:

* `SliteAPI._convert_to_prosemirror` (the line-classification document-tree
  builder), embedded as `convert_to_prosemirror`.  The Python code mutates
  two nullable locals (`current_list`, `current_paragraph`) while iterating
  over the lines.  `current_paragraph` is a mutable dict that can be appended
  to `doc_content` and *still* be mutated afterwards (the blank-line branch
  appends it without clearing it), so the embedding represents an open
  paragraph by an index into a store `paras` of paragraph contents and
  materialises the references only at the very end.  The out-of-bounds read
  `line[1]` on a one-character digit line is modelled by returning `none`.
* `SliteEventHandler` (the event bus), embedded with handlers as fallible
  functions; the `try/except` around each handler call is modelled by
  `caught`, and a trigger returns the list of logged outcomes.
* `SliteAPI.add_metadata`, embedded over association lists with Python dict
  update semantics (`setKey` replaces in place or appends at the end).
-/

/-- ProseMirror node trees as built by the Python dictionaries: `text` is the
inline leaf, the block kinds mirror the `type` tags used in the source
(`paragraph`, `heading` with its level attribute, `bulletList`, `listItem`,
`doc`). -/
inductive PM where
  | text (s : List Char)
  | paragraph (content : List PM)
  | heading (level : Nat) (content : List PM)
  | bulletList (content : List PM)
  | listItem (content : List PM)
  | doc (content : List PM)

/-- Entries of the in-progress `doc_content` list.  A `node` is a dict that is
never mutated after being appended; a `paraRef i` is a reference to the shared
mutable paragraph object number `i` (the Python code can append a paragraph to
`doc_content` and keep mutating it afterwards, because the blank-line branch
does not clear `current_paragraph`). -/
inductive Entry where
  | node (n : PM)
  | paraRef (i : Nat)

/-- The loop state of `_convert_to_prosemirror`: the accumulated
`doc_content`, the open bullet list (`current_list`, by its list-item nodes),
the open paragraph (`current_paragraph`, as an index into `paras`), and the
store of paragraph contents indexed by paragraph identity. -/
structure BState where
  doc : List Entry
  curList : Option (List PM)
  curPara : Option Nat
  paras : List (List PM)

/-- Initial state: empty `doc_content`, no open list, no open paragraph. -/
def initState : BState := ⟨[], none, none, []⟩

/-- Python `content.split('\n')` on the character list: the empty input gives
one empty line, and every newline character starts a fresh line. -/
def splitNl : List Char → List (List Char)
  | [] => [[]]
  | c :: rest =>
    if c = '\n' then [] :: splitNl rest
    else
      match splitNl rest with
      | [] => [[c]]
      | l :: ls => (c :: l) :: ls

/-- Python `line.rstrip()`: drop trailing whitespace. -/
def rstripChars (cs : List Char) : List Char :=
  (cs.reverse.dropWhile fun c => c.isWhitespace).reverse

/-- Python `line.strip()`: drop leading and trailing whitespace. -/
def stripChars (cs : List Char) : List Char :=
  (rstripChars cs).dropWhile fun c => c.isWhitespace

/-- The bullet test of the source, `line.strip().startswith('- ')`. -/
def isBulletLine (line : List Char) : Bool :=
  match stripChars line with
  | '-' :: ' ' :: _ => true
  | _ => false

/-- The five fixed label prefixes tested by the section-header branch. -/
def labelPrefixes : List (List Char) :=
  ["Meeting Notes:".data, "Date:".data, "Time:".data, "Attendees:".data,
   "Facilitator:".data]

/-- The section-header test of the source: `line.startswith(p)` for one of the
five fixed labels. -/
def isLabelLine (line : List Char) : Bool :=
  labelPrefixes.any fun p => p.isPrefixOf line

/-- The `listItem` dict built for a bullet line: one paragraph holding one
text leaf. -/
def listItemNode (text : List Char) : PM :=
  PM.listItem [PM.paragraph [PM.text text]]

/-- Flush the open list: `doc_content.append(current_list); current_list =
None` when a list is open, otherwise do nothing. -/
def flushList (s : BState) : BState :=
  match s.curList with
  | some items =>
    { s with doc := s.doc ++ [Entry.node (PM.bulletList items)], curList := none }
  | none => s

/-- Append the open paragraph to `doc_content` WITHOUT clearing
`current_paragraph` — exactly what the blank-line branch of the source does
(it lacks the `current_paragraph = None` line). -/
def emitPara (s : BState) : BState :=
  match s.curPara with
  | some i => { s with doc := s.doc ++ [Entry.paraRef i] }
  | none => s

/-- Flush the open paragraph and clear it, as the two heading branches do. -/
def flushPara (s : BState) : BState :=
  match s.curPara with
  | some i => { s with doc := s.doc ++ [Entry.paraRef i], curPara := none }
  | none => s

/-- Blank-line branch: flush the open list, append (but do not clear) the
open paragraph, then append a fresh paragraph holding one empty text leaf. -/
def blankBranch (s : BState) : BState :=
  let s1 := emitPara (flushList s)
  { s1 with doc := s1.doc ++ [Entry.node (PM.paragraph [PM.text []])] }

/-- Bullet branch: `text = line.strip()[2:]`; open a fresh empty list if none
is open and append the new list item.  Neither `doc_content` nor
`current_paragraph` is touched. -/
def bulletBranch (s : BState) (line : List Char) : BState :=
  { s with
    curList := some ((s.curList.getD []) ++ [listItemNode ((stripChars line).drop 2)]) }

/-- Heading branch (shared by the label and the numbered case): flush the open
list, flush and clear the open paragraph, append a level-2 heading holding the
whole (trailing-trimmed) line. -/
def headingBranch (s : BState) (line : List Char) : BState :=
  let s1 := flushPara (flushList s)
  { s1 with doc := s1.doc ++ [Entry.node (PM.heading 2 [PM.text line])] }

/-- Regular-text branch: flush the open list; open a fresh paragraph if none
is open; append the line as one more text leaf of the open paragraph (which
may already sit inside `doc_content`, in which case the appended copy is
mutated too). -/
def textBranch (s : BState) (line : List Char) : BState :=
  let s1 := flushList s
  match s1.curPara with
  | some i =>
    { s1 with paras := s1.paras.set i ((s1.paras.getD i []) ++ [PM.text line]) }
  | none =>
    { s1 with curPara := some s1.paras.length, paras := s1.paras ++ [[PM.text line]] }

/-- One iteration of the line loop, following the source's branch order:
blank, bullet, label heading, then the numbered-heading test
`line[0].isdigit() and line[1] == '.'` with its short-circuit evaluation —
on a one-character line whose only character is a digit, reading `line[1]`
is out of bounds, modelled as `none`. -/
def step (s : BState) (raw : List Char) : Option BState :=
  match rstripChars raw with
  | [] => some (blankBranch s)
  | c0 :: rest =>
    if isBulletLine (c0 :: rest) then some (bulletBranch s (c0 :: rest))
    else if isLabelLine (c0 :: rest) then some (headingBranch s (c0 :: rest))
    else
      match rest with
      | [] => if c0.isDigit then none else some (textBranch s [c0])
      | c1 :: _ =>
        if c0.isDigit then
          if c1 = '.' then some (headingBranch s (c0 :: rest))
          else some (textBranch s (c0 :: rest))
        else some (textBranch s (c0 :: rest))

/-- The line loop: process the lines in order, propagating the out-of-bounds
failure. -/
def runLines : BState → List (List Char) → Option BState
  | s, [] => some s
  | s, raw :: rest =>
    match step s raw with
    | none => none
    | some s1 => runLines s1 rest

/-- Materialise a `doc_content` entry at the end of the run: a paragraph
reference denotes the final contents of that paragraph object. -/
def materializeEntry (paras : List (List PM)) : Entry → PM
  | Entry.node n => n
  | Entry.paraRef i => PM.paragraph (paras.getD i [])

/-- Embedding of `SliteAPI._convert_to_prosemirror`: split on newlines, run
the classification loop, flush the remaining list then the remaining
paragraph, and wrap everything in a `doc` node.  `none` models the
`IndexError` raised by the numbered-heading test on a one-character digit
line. -/
def convert_to_prosemirror (content : String) : Option PM :=
  match runLines initState (splitNl content.data) with
  | none => none
  | some s =>
    some (PM.doc (((flushPara (flushList s)).doc).map (materializeEntry s.paras)))

/-- The four event kinds managed by `SliteEventHandler`. -/
inductive EventKind where
  | folder_created
  | folder_updated
  | document_created
  | document_updated

/-- Embedding of `SliteEventHandler`: one ordered handler list per event
kind.  A handler takes the payload and either succeeds or fails with an
error value (modelling a raised exception). -/
structure SliteEventHandler (α ε : Type) where
  folder_created_handlers : List (α → Except ε Unit)
  folder_updated_handlers : List (α → Except ε Unit)
  document_created_handlers : List (α → Except ε Unit)
  document_updated_handlers : List (α → Except ε Unit)

/-- The `__init__` state: four empty handler lists. -/
def SliteEventHandler.init (α ε : Type) : SliteEventHandler α ε :=
  ⟨[], [], [], []⟩

/-- The handler list consulted for a given event kind. -/
def handlersFor (b : SliteEventHandler α ε) : EventKind → List (α → Except ε Unit)
  | EventKind.folder_created => b.folder_created_handlers
  | EventKind.folder_updated => b.folder_updated_handlers
  | EventKind.document_created => b.document_created_handlers
  | EventKind.document_updated => b.document_updated_handlers

/-- Registration (`on_folder_created` and friends): append the handler to the
list for its kind. -/
def register (b : SliteEventHandler α ε) (k : EventKind) (h : α → Except ε Unit) :
    SliteEventHandler α ε :=
  match k with
  | EventKind.folder_created =>
    { b with folder_created_handlers := b.folder_created_handlers ++ [h] }
  | EventKind.folder_updated =>
    { b with folder_updated_handlers := b.folder_updated_handlers ++ [h] }
  | EventKind.document_created =>
    { b with document_created_handlers := b.document_created_handlers ++ [h] }
  | EventKind.document_updated =>
    { b with document_updated_handlers := b.document_updated_handlers ++ [h] }

/-- The `try/except` wrapper around one handler call: a success is silent, a
raised exception is caught and logged (`logger.error`), never re-raised. -/
def caught (r : Except ε Unit) : Option ε :=
  match r with
  | Except.ok _ => none
  | Except.error e => some e

/-- The trigger loop body shared by the four `trigger_*` methods: call each
handler in order with the payload, catching and logging each failure, and
return the list of logged outcomes. -/
def triggerHandlers {α ε : Type} : List (α → Except ε Unit) → α → List (Option ε)
  | [], _ => []
  | h :: rest, p => caught (h p) :: triggerHandlers rest p

/-- Embedding of `trigger_folder_created` / `trigger_folder_updated` /
`trigger_document_created` / `trigger_document_updated`, dispatched on the
event kind. -/
def SliteEventHandler.trigger (b : SliteEventHandler α ε) (k : EventKind) (p : α) :
    List (Option ε) :=
  triggerHandlers (handlersFor b k) p

/-- Values stored in the dictionaries handled by `add_metadata`: strings,
booleans, or the nested `metadata` string-to-string dict. -/
inductive Val where
  | s (v : String)
  | b (v : Bool)
  | d (m : List (String × String))

/-- First-occurrence lookup in an association list (Python `data[k]` /
`k in data`). -/
def lookupKey : List (String × α) → String → Option α
  | [], _ => none
  | (k0, v0) :: rest, k => if k0 = k then some v0 else lookupKey rest k

/-- Python dict assignment `data[k] = v`: replace the value in place when the
key exists, otherwise append the new pair at the end. -/
def setKey : List (String × α) → String → α → List (String × α)
  | [], k, v => [(k, v)]
  | (k0, v0) :: rest, k, v =>
    if k0 = k then (k, v) :: rest else (k0, v0) :: setKey rest k v

/-- The dict literal passed to `data["metadata"].update(...)`, applied as two
Python dict assignments in order: `last_updated` then `updated_by`. -/
def metaStamp (m : List (String × String)) (now : String) : List (String × String) :=
  setKey (setKey m "last_updated" now) "updated_by" "Slite Integration Agent"

/-- The `metadata` sub-dict of the input, empty when absent. -/
def oldMeta (data : List (String × Val)) : List (String × String) :=
  match lookupKey data "metadata" with
  | some (Val.d m) => m
  | _ => []

/-- Embedding of `SliteAPI.add_metadata`.  The wall-clock timestamp is passed
in as `now`.  When the existing `metadata` value is not a dict the Python
code raises (`.update` on a non-dict), modelled as `none`. -/
def add_metadata (data : List (String × Val)) (now : String) :
    Option (List (String × Val)) :=
  match lookupKey data "metadata" with
  | some (Val.d m) => some (setKey data "metadata" (Val.d (metaStamp m now)))
  | some _ => none
  | none => some (setKey data "metadata" (Val.d (metaStamp [] now)))

/-- A node is allowed as a document child as far as the bullet-list invariant
is concerned when it is not an empty `bulletList`. -/
def pmBulletOk (n : PM) : Prop :=
  match n with
  | PM.bulletList items => items ≠ []
  | _ => True

/-- A document all of whose bullet-list children are non-empty. -/
def docBulletsOk (d : PM) : Prop :=
  match d with
  | PM.doc cs => ∀ e ∈ cs, pmBulletOk e
  | _ => True

/-- A `doc_content` entry satisfying the bullet-list invariant. -/
def entryOk (e : Entry) : Prop :=
  match e with
  | Entry.node n => pmBulletOk n
  | Entry.paraRef _ => True

/-- An open list, when present, already holds at least one item. -/
def listOk (o : Option (List PM)) : Prop :=
  match o with
  | some items => items ≠ []
  | none => True

/-- The loop invariant for the bullet-list claim: the open list is non-empty
and every bullet list already emitted is non-empty. -/
def stateOk (s : BState) : Prop :=
  listOk s.curList ∧ ∀ e ∈ s.doc, entryOk e

/-- Sample dictionary used to exercise `add_metadata`: one unrelated key and
an existing `metadata` sub-dict with one unrelated key. -/
def sampleData : List (String × Val) :=
  [("title", Val.s "T"), ("metadata", Val.d [("team", "x")])]

/-- Timestamp passed to the sample `add_metadata` run. -/
def sampleNow : String := "2025-01-01 00:00:00"

theorem lookupKey_setKey_same (l : List (String × α)) (k : String) (v : α) :
    lookupKey (setKey l k v) k = some v := by
  induction l with
  | nil => simp [setKey, lookupKey]
  | cons hd tl ih =>
    obtain ⟨k0, v0⟩ := hd
    by_cases h : k0 = k
    · simp [setKey, lookupKey, h]
    · simp [setKey, lookupKey, h, ih]

theorem lookupKey_setKey_other (l : List (String × α)) (k k2 : String) (v : α)
    (h : k2 ≠ k) : lookupKey (setKey l k v) k2 = lookupKey l k2 := by
  induction l with
  | nil => simp [setKey, lookupKey, Ne.symm h]
  | cons hd tl ih =>
    obtain ⟨k0, v0⟩ := hd
    by_cases h0 : k0 = k
    · subst h0
      simp [setKey, lookupKey, Ne.symm h]
    · by_cases h2 : k0 = k2
      · subst h2
        simp [setKey, lookupKey, h, h0]
      · simp [setKey, lookupKey, h0, h2, ih]

theorem triggerHandlers_eq_map {α ε : Type} (hs : List (α → Except ε Unit)) (p : α) :
    triggerHandlers hs p = hs.map fun h => caught (h p) := by
  induction hs with
  | nil => rfl
  | cons h rest ih => simp [triggerHandlers, ih]

theorem handlersFor_register (b : SliteEventHandler α ε) (k : EventKind)
    (h : α → Except ε Unit) :
    handlersFor (register b k h) k = handlersFor b k ++ [h] := by
  cases k <;> rfl

theorem stateOk_flushList (s : BState) (h : stateOk s) : stateOk (flushList s) := by
  obtain ⟨h1, h2⟩ := h
  cases hc : s.curList with
  | none => simpa [flushList, hc] using ⟨h1, h2⟩
  | some items =>
    constructor
    · simp [flushList, hc, listOk]
    · intro e he
      simp [flushList, hc] at he
      rcases he with he | he
      · exact h2 e he
      · subst he
        rw [hc] at h1
        simpa [entryOk, pmBulletOk] using h1

theorem stateOk_emitPara (s : BState) (h : stateOk s) : stateOk (emitPara s) := by
  obtain ⟨h1, h2⟩ := h
  cases hp : s.curPara with
  | none => simpa [emitPara, hp] using ⟨h1, h2⟩
  | some i =>
    constructor
    · simpa [emitPara, hp] using h1
    · intro e he
      simp [emitPara, hp] at he
      rcases he with he | he
      · exact h2 e he
      · subst he
        simp [entryOk]

theorem stateOk_flushPara (s : BState) (h : stateOk s) : stateOk (flushPara s) := by
  obtain ⟨h1, h2⟩ := h
  cases hp : s.curPara with
  | none => simpa [flushPara, hp] using ⟨h1, h2⟩
  | some i =>
    constructor
    · simpa [flushPara, hp] using h1
    · intro e he
      simp [flushPara, hp] at he
      rcases he with he | he
      · exact h2 e he
      · subst he
        simp [entryOk]

theorem stateOk_append_node (s : BState) (n : PM) (hn : pmBulletOk n) (h : stateOk s) :
    stateOk { s with doc := s.doc ++ [Entry.node n] } := by
  refine ⟨h.1, ?_⟩
  intro e he
  simp at he
  rcases he with he | he
  · exact h.2 e he
  · subst he
    simpa [entryOk] using hn

theorem stateOk_blankBranch (s : BState) (h : stateOk s) : stateOk (blankBranch s) :=
  stateOk_append_node _ _ (by simp [pmBulletOk])
    (stateOk_emitPara _ (stateOk_flushList _ h))

theorem stateOk_bulletBranch (s : BState) (line : List Char) (h : stateOk s) :
    stateOk (bulletBranch s line) := by
  refine ⟨?_, h.2⟩
  simp [bulletBranch, listOk]

theorem stateOk_headingBranch (s : BState) (line : List Char) (h : stateOk s) :
    stateOk (headingBranch s line) :=
  stateOk_append_node _ _ (by simp [pmBulletOk])
    (stateOk_flushPara _ (stateOk_flushList _ h))

theorem stateOk_textBranch (s : BState) (line : List Char) (h : stateOk s) :
    stateOk (textBranch s line) := by
  have h1 := stateOk_flushList s h
  simp only [textBranch]
  cases hp : (flushList s).curPara with
  | none => exact ⟨h1.1, h1.2⟩
  | some i => exact ⟨h1.1, h1.2⟩

theorem stateOk_step (s s2 : BState) (raw : List Char) (h : step s raw = some s2)
    (hs : stateOk s) : stateOk s2 := by
  unfold step at h
  split at h
  · injection h with h2
    subst h2
    exact stateOk_blankBranch s hs
  · split at h
    · injection h with h2
      subst h2
      exact stateOk_bulletBranch _ _ hs
    · split at h
      · injection h with h2
        subst h2
        exact stateOk_headingBranch _ _ hs
      · split at h
        · split at h
          · cases h
          · injection h with h2
            subst h2
            exact stateOk_textBranch _ _ hs
        · split at h
          · split at h
            · injection h with h2
              subst h2
              exact stateOk_headingBranch _ _ hs
            · injection h with h2
              subst h2
              exact stateOk_textBranch _ _ hs
          · injection h with h2
            subst h2
            exact stateOk_textBranch _ _ hs

theorem stateOk_runLines (ls : List (List Char)) :
    ∀ s s2 : BState, runLines s ls = some s2 → stateOk s → stateOk s2 := by
  induction ls with
  | nil =>
    intro s s2 h hs
    unfold runLines at h
    injection h with h2
    subst h2
    exact hs
  | cons raw rest ih =>
    intro s s2 h hs
    unfold runLines at h
    cases hstep : step s raw with
    | none => rw [hstep] at h; cases h
    | some s1 =>
      rw [hstep] at h
      exact ih s1 s2 h (stateOk_step s s1 raw hstep hs)

/-- C1: the claim states that `_convert_to_prosemirror` is total and treats a
line consisting of a single decimal digit as regular text.  The code instead
evaluates `line[1]` after only checking `line[0].isdigit()`, which is out of
bounds on the input "5"; the embedding therefore produces the failure value
`none` instead of a document. -/
theorem c1_single_digit_line_crashes : convert_to_prosemirror "5" = none := rfl

/-- C2: the claim states that a blank line flushes AND clears the open
paragraph, so that `build "a\n\nb"` is `[Paragraph "a", Paragraph "",
Paragraph "b"]`.  The blank-line branch of the code never clears
`current_paragraph` (first conjunct), so the still-open paragraph object —
already sitting inside `doc_content` — receives the text "b" as a second leaf
and is appended a second time by the final flush: the actual result has the
two-leaf paragraph twice. -/
theorem c2_blank_line_keeps_paragraph_open :
    (∀ s : BState, (blankBranch s).curPara = s.curPara)
  ∧ convert_to_prosemirror "a\n\nb"
      = some (PM.doc
          [PM.paragraph [PM.text ['a'], PM.text ['b']],
           PM.paragraph [PM.text []],
           PM.paragraph [PM.text ['a'], PM.text ['b']]]) := by
  constructor
  · intro s
    cases hc : s.curList <;> cases hp : s.curPara <;>
      simp [blankBranch, emitPara, flushList, hc, hp]
  · rfl

/-- C3: the claim states that a bullet line flushes an open paragraph before
the list item is added, so that for a text line followed by bullets the
paragraph precedes the bullet list among the document's children.  The bullet
branch of the code touches neither `doc_content` nor `current_paragraph`
(first conjunct), and the end-of-input flush appends the list before the
paragraph, so for "x\n- a\n- b" the bullet list comes first. -/
theorem c3_bullet_branch_ignores_paragraph :
    (∀ (s : BState) (line : List Char),
        (bulletBranch s line).doc = s.doc ∧ (bulletBranch s line).curPara = s.curPara)
  ∧ convert_to_prosemirror "x\n- a\n- b"
      = some (PM.doc
          [PM.bulletList [PM.listItem [PM.paragraph [PM.text ['a']]],
             PM.listItem [PM.paragraph [PM.text ['b']]]],
           PM.paragraph [PM.text ['x']]]) :=
  ⟨fun _ _ => ⟨rfl, rfl⟩, rfl⟩

/-- C4 counterexample: the claim states that `build ""` yields a document
with zero children; in fact splitting the empty string on newlines yields one
empty line, whose blank-line rule appends one empty paragraph. -/
theorem c4_counterexample : convert_to_prosemirror "" ≠ some (PM.doc []) := by
  intro h
  have e1 : convert_to_prosemirror "" = some (PM.doc [PM.paragraph [PM.text []]]) := rfl
  have h2 := e1.symm.trans h
  simp at h2

/-- C4 (amended): `build ""` returns a document with exactly one child, a
paragraph holding a single empty text leaf — the blank-line marker produced
for the single empty line that Python's `split` yields on the empty string. -/
theorem c4_empty_input_single_blank_paragraph :
    convert_to_prosemirror "" = some (PM.doc [PM.paragraph [PM.text []]]) := rfl

/-- C5: triggering an event kind invokes every handler registered for that
kind, in registration order, each exactly once, with the payload passed
unchanged; a failing handler is caught and logged and subsequent handlers
still run (the outcome list is the pointwise image of the handler list, with
no dependence between entries); registering H1 then H2 appends both in order;
and triggering on the freshly initialised bus (zero handlers) is a no-op.
`trigger` is a total function, so it never fails. -/
theorem c5_event_dispatch (α ε : Type) (b : SliteEventHandler α ε) (k : EventKind)
    (p : α) (h1 h2 : α → Except ε Unit) :
    SliteEventHandler.trigger b k p = (handlersFor b k).map (fun h => caught (h p))
  ∧ SliteEventHandler.trigger (register (register b k h1) k h2) k p
      = (handlersFor b k).map (fun h => caught (h p)) ++ [caught (h1 p), caught (h2 p)]
  ∧ SliteEventHandler.trigger (SliteEventHandler.init α ε) k p = [] := by
  refine ⟨triggerHandlers_eq_map _ _, ?_, ?_⟩
  · simp only [SliteEventHandler.trigger, triggerHandlers_eq_map, handlersFor_register]
    simp
  · cases k <;> rfl

/-- C6: every bullet list appearing among a document's children is non-empty,
for every input on which the conversion succeeds — a `bulletList` is only
appended to `doc_content` after at least one `listItem` has been added to
it. -/
theorem c6_bulletlists_nonempty (content : String) (d : PM)
    (h : convert_to_prosemirror content = some d) : docBulletsOk d := by
  unfold convert_to_prosemirror at h
  cases hr : runLines initState (splitNl content.data) with
  | none => rw [hr] at h; cases h
  | some s =>
    rw [hr] at h
    injection h with h2
    subst h2
    have hs : stateOk s :=
      stateOk_runLines _ _ _ hr (by simp [stateOk, initState, listOk])
    have hs2 : stateOk (flushPara (flushList s)) :=
      stateOk_flushPara _ (stateOk_flushList _ hs)
    simp only [docBulletsOk]
    intro e he
    rw [List.mem_map] at he
    obtain ⟨e0, he0, heq⟩ := he
    subst heq
    cases e0 with
    | node n => simpa [materializeEntry, entryOk] using hs2.2 _ he0
    | paraRef i => simp [materializeEntry, pmBulletOk]

/-- Witness for C6: the conversion of "- a" succeeds and the resulting
document satisfies the non-empty-bullet-list invariant. -/
theorem c6_witness :
    docBulletsOk (PM.doc [PM.bulletList [PM.listItem [PM.paragraph [PM.text ['a']]]]]) :=
  c6_bulletlists_nonempty "- a"
    (PM.doc [PM.bulletList [PM.listItem [PM.paragraph [PM.text ['a']]]]]) rfl

/-- C7: a non-blank, non-bullet line carrying one of the five fixed label
prefixes is classified as a heading: the open list and the open paragraph are
flushed (and both cleared), and a level-2 heading holding the whole
(trailing-trimmed) line is appended; in particular the conversion of
"Date: 2024-01-01" is a document with exactly one child, a level-2 heading
with that exact text. -/
theorem c7_label_heading (s : BState) (raw : List Char)
    (h1 : rstripChars raw ≠ [])
    (h2 : isBulletLine (rstripChars raw) = false)
    (h3 : isLabelLine (rstripChars raw) = true) :
    step s raw = some (headingBranch s (rstripChars raw))
  ∧ (headingBranch s (rstripChars raw)).doc
      = (flushPara (flushList s)).doc
        ++ [Entry.node (PM.heading 2 [PM.text (rstripChars raw)])]
  ∧ (headingBranch s (rstripChars raw)).curList = none
  ∧ (headingBranch s (rstripChars raw)).curPara = none
  ∧ convert_to_prosemirror "Date: 2024-01-01"
      = some (PM.doc [PM.heading 2 [PM.text "Date: 2024-01-01".data]]) := by
  refine ⟨?_, rfl, ?_, ?_, rfl⟩
  · cases hl : rstripChars raw with
    | nil => exact absurd hl h1
    | cons c0 rest =>
      rw [hl] at h2 h3
      unfold step
      rw [hl]
      simp [h2, h3]
  · cases hc : s.curList <;> cases hp : s.curPara <;>
      simp [headingBranch, flushPara, flushList, hc, hp]
  · cases hc : s.curList <;> cases hp : s.curPara <;>
      simp [headingBranch, flushPara, flushList, hc, hp]

/-- Witness for C7: the classification theorem applied to the initial state
and the concrete line "Date: 2024-01-01". -/
theorem c7_witness :
    step initState "Date: 2024-01-01".data
      = some (headingBranch initState (rstripChars "Date: 2024-01-01".data))
  ∧ (headingBranch initState (rstripChars "Date: 2024-01-01".data)).doc
      = (flushPara (flushList initState)).doc
        ++ [Entry.node (PM.heading 2 [PM.text (rstripChars "Date: 2024-01-01".data)])]
  ∧ (headingBranch initState (rstripChars "Date: 2024-01-01".data)).curList = none
  ∧ (headingBranch initState (rstripChars "Date: 2024-01-01".data)).curPara = none
  ∧ convert_to_prosemirror "Date: 2024-01-01"
      = some (PM.doc [PM.heading 2 [PM.text "Date: 2024-01-01".data]]) :=
  c7_label_heading initState ("Date: 2024-01-01".data)
    (by decide) (by decide) (by decide)

/-- C8: the conversion of "- a\n- b" is a document with exactly one child, a
bullet list holding two list items with texts "a" then "b", each item a
single paragraph with a single text leaf. -/
theorem c8_two_bullets :
    convert_to_prosemirror "- a\n- b"
      = some (PM.doc [PM.bulletList
          [PM.listItem [PM.paragraph [PM.text ['a']]],
           PM.listItem [PM.paragraph [PM.text ['b']]]]]) := rfl

/-- C9: whenever `add_metadata` succeeds it leaves every key other than
"metadata" unchanged; the "metadata" key afterwards holds the stamped
sub-dict, which exists even when the input had none; the stamped sub-dict
maps "updated_by" to the fixed string "Slite Integration Agent" and leaves
every pre-existing metadata key other than "last_updated" and "updated_by"
unchanged. -/
theorem c9_add_metadata_frame (data : List (String × Val)) (now : String)
    (out : List (String × Val)) (h : add_metadata data now = some out) :
    (∀ k, k ≠ "metadata" → lookupKey out k = lookupKey data k)
  ∧ lookupKey out "metadata" = some (Val.d (metaStamp (oldMeta data) now))
  ∧ lookupKey (metaStamp (oldMeta data) now) "updated_by"
      = some "Slite Integration Agent"
  ∧ (∀ k, k ≠ "last_updated" → k ≠ "updated_by" →
        lookupKey (metaStamp (oldMeta data) now) k = lookupKey (oldMeta data) k) := by
  unfold add_metadata at h
  cases hm : lookupKey data "metadata" with
  | none =>
    rw [hm] at h
    have hold : oldMeta data = [] := by simp [oldMeta, hm]
    injection h with h2
    subst h2
    rw [hold]
    refine ⟨?_, ?_, ?_, ?_⟩
    · intro k hk
      exact lookupKey_setKey_other _ _ _ _ hk
    · exact lookupKey_setKey_same _ _ _
    · exact lookupKey_setKey_same _ _ _
    · intro k hk1 hk2
      unfold metaStamp
      rw [lookupKey_setKey_other _ _ _ _ hk2, lookupKey_setKey_other _ _ _ _ hk1]
  | some v =>
    cases v with
    | d m =>
      rw [hm] at h
      have hold : oldMeta data = m := by simp [oldMeta, hm]
      injection h with h2
      subst h2
      rw [hold]
      refine ⟨?_, ?_, ?_, ?_⟩
      · intro k hk
        exact lookupKey_setKey_other _ _ _ _ hk
      · exact lookupKey_setKey_same _ _ _
      · exact lookupKey_setKey_same _ _ _
      · intro k hk1 hk2
        unfold metaStamp
        rw [lookupKey_setKey_other _ _ _ _ hk2, lookupKey_setKey_other _ _ _ _ hk1]
    | s v2 =>
      rw [hm] at h
      cases h
    | b v2 =>
      rw [hm] at h
      cases h

/-- Witness for C9: the frame theorem applied to a concrete dictionary with a
pre-existing metadata sub-dict. -/
theorem c9_witness :
    (∀ k, k ≠ "metadata" →
        lookupKey (setKey sampleData "metadata"
            (Val.d (metaStamp (oldMeta sampleData) sampleNow))) k
          = lookupKey sampleData k)
  ∧ lookupKey (setKey sampleData "metadata"
        (Val.d (metaStamp (oldMeta sampleData) sampleNow))) "metadata"
      = some (Val.d (metaStamp (oldMeta sampleData) sampleNow))
  ∧ lookupKey (metaStamp (oldMeta sampleData) sampleNow) "updated_by"
      = some "Slite Integration Agent"
  ∧ (∀ k, k ≠ "last_updated" → k ≠ "updated_by" →
        lookupKey (metaStamp (oldMeta sampleData) sampleNow) k
          = lookupKey (oldMeta sampleData) k) :=
  c9_add_metadata_frame sampleData sampleNow
    (setKey sampleData "metadata" (Val.d (metaStamp (oldMeta sampleData) sampleNow)))
    rfl

/-- C10: a bullet line (after trailing-whitespace trim, non-empty, whose
fully stripped form starts with "dash, space") yields a list item whose text
is the fully whitespace-stripped line with the two-character marker removed,
so leading indentation never reaches the item's text leaf; in particular
"  - a" produces an item with text "a". -/
theorem c10_bullet_item_text (s : BState) (raw : List Char)
    (h1 : rstripChars raw ≠ [])
    (h2 : isBulletLine (rstripChars raw) = true) :
    step s raw = some (bulletBranch s (rstripChars raw))
  ∧ (bulletBranch s (rstripChars raw)).curList
      = some ((s.curList.getD [])
          ++ [PM.listItem [PM.paragraph
                [PM.text ((stripChars (rstripChars raw)).drop 2)]]])
  ∧ convert_to_prosemirror "  - a"
      = some (PM.doc [PM.bulletList [PM.listItem [PM.paragraph [PM.text ['a']]]]]) := by
  refine ⟨?_, rfl, rfl⟩
  cases hl : rstripChars raw with
  | nil => exact absurd hl h1
  | cons c0 rest =>
    rw [hl] at h2
    unfold step
    rw [hl]
    simp [h2]

/-- Witness for C10: the classification theorem applied to the initial state
and the concrete indented bullet line "  - a". -/
theorem c10_witness :
    step initState "  - a".data = some (bulletBranch initState (rstripChars "  - a".data))
  ∧ (bulletBranch initState (rstripChars "  - a".data)).curList
      = some ((initState.curList.getD [])
          ++ [PM.listItem [PM.paragraph
                [PM.text ((stripChars (rstripChars "  - a".data)).drop 2)]]])
  ∧ convert_to_prosemirror "  - a"
      = some (PM.doc [PM.bulletList [PM.listItem [PM.paragraph [PM.text ['a']]]]]) :=
  c10_bullet_item_text initState ("  - a".data) (by decide) (by decide)
